import Mathlib

/-!
# Verification of the libevent compatibility layer (`src/common/compat_libevent.c`)

A shallow embedding of the version codec, ABI-era bucketing, the known-bug
compatibility matrix, the header/runtime skew check, the periodic-timer
emulation callback and the libevent log bridge, together with theorems about
their behaviour.

Version strings are modelled as `List Char` (C strings restricted to their
bytes before the terminating NUL).  Machine integers are modelled as `Nat`
with explicit reduction modulo `2 ^ 32` where the C code computes in
`uint32_t` / `unsigned int`.
-/

/- ## The `sscanf` fragment used by `tor_decode_libevent_version`

`tor_decode_libevent_version` calls `sscanf` with the two formats
`"%u.%u.%u%c%c"` and `"%u.%u%c%c"`.  The following definitions model exactly
that fragment of C `sscanf`: `%u` skips leading whitespace, accepts an
optional sign and a nonempty digit run (value taken modulo `2 ^ 32`, the
practical behaviour of a 32-bit `unsigned`); a literal `.` in the format
matches exactly one `.`; `%c` consumes exactly one character and fails only
at end of input.  The return value counts assigned conversions, with `-1`
(EOF) when end of input is reached before the first conversion completes. -/

/-- The six byte values accepted by C `isspace` in the POSIX locale. -/
def isSpaceByte (c : Char) : Bool :=
  c = ' ' || c = '\t' || c = '\n' || c = '\x0b' || c = '\x0c' || c = '\r'

/-- Skip the leading whitespace that a `%u` conversion consumes. -/
def skipSpace : List Char → List Char
  | [] => []
  | c :: t => if isSpaceByte c then skipSpace t else c :: t

/-- ASCII decimal digit test. -/
def isDigitByte (c : Char) : Bool :=
  '0' ≤ c && c ≤ '9'

/-- Split a list into its maximal leading digit run and the remainder. -/
def takeDigits : List Char → List Char × List Char
  | [] => ([], [])
  | c :: t =>
    if isDigitByte c then
      let p := takeDigits t
      (c :: p.1, p.2)
    else ([], c :: t)

/-- Numeric value of a digit run (most significant digit first). -/
def digitsVal (l : List Char) : Nat :=
  l.foldl (fun a c => a * 10 + (c.toNat - 48)) 0

/-- One `%u` conversion: leading whitespace, optional sign, a nonempty digit
run; the value is reduced modulo `2 ^ 32` (a negated value wraps as in
`unsigned` arithmetic).  Returns `none` on matching or input failure. -/
def scanU (s : List Char) : Option (Nat × List Char) :=
  let s1 := skipSpace s
  let p := match s1 with
    | '-' :: t => (true, t)
    | '+' :: t => (false, t)
    | _ => (false, s1)
  match takeDigits p.2 with
  | ([], _) => none
  | (ds, rest) =>
    let v := digitsVal ds % 2 ^ 32
    some ((if p.1 then (2 ^ 32 - v) % 2 ^ 32 else v), rest)

/-- Whether a failing leading `%u` conversion failed by reaching end of input
(in which case `sscanf` reports EOF, i.e. `-1`) rather than by meeting a
non-digit character (in which case it reports `0` assignments). -/
def scanFailAtEnd (s : List Char) : Bool :=
  let s1 := skipSpace s
  let s2 := match s1 with
    | '-' :: t => t
    | '+' :: t => t
    | _ => s1
  s2.isEmpty

/-- Result of `sscanf(v, "%u.%u.%u%c%c", &major, &minor, &patchlevel, &c, &e)`.
Fields that were not assigned keep the placeholder `0` / `'\x00'`; the caller
(`tor_decode_libevent_version`) only inspects them when the field count shows
they were assigned, exactly as the C code does. -/
structure Scan5R where
  fields : Int
  major : Nat
  minor : Nat
  patchlevel : Nat
  c : Char
  e : Char
deriving DecidableEq, Repr

/-- Model of `sscanf(v, "%u.%u.%u%c%c", ...)`. -/
def scan_new_format (s : List Char) : Scan5R :=
  match scanU s with
  | none => ⟨if scanFailAtEnd s then -1 else 0, 0, 0, 0, '\x00', '\x00'⟩
  | some (ma, s1) =>
    match s1 with
    | '.' :: s2 =>
      match scanU s2 with
      | none => ⟨1, ma, 0, 0, '\x00', '\x00'⟩
      | some (mi, s3) =>
        match s3 with
        | '.' :: s4 =>
          match scanU s4 with
          | none => ⟨2, ma, mi, 0, '\x00', '\x00'⟩
          | some (pa, s5) =>
            match s5 with
            | [] => ⟨3, ma, mi, pa, '\x00', '\x00'⟩
            | c :: s6 =>
              match s6 with
              | [] => ⟨4, ma, mi, pa, c, '\x00'⟩
              | e :: _ => ⟨5, ma, mi, pa, c, e⟩
        | _ => ⟨2, ma, mi, 0, '\x00', '\x00'⟩
    | _ => ⟨1, ma, 0, 0, '\x00', '\x00'⟩

/-- Result of `sscanf(v, "%u.%u%c%c", &major, &minor, &c, &extra)`. -/
structure Scan4R where
  fields : Int
  major : Nat
  minor : Nat
  c : Char
  extra : Char
deriving DecidableEq, Repr

/-- Model of `sscanf(v, "%u.%u%c%c", ...)`. -/
def scan_old_format (s : List Char) : Scan4R :=
  match scanU s with
  | none => ⟨if scanFailAtEnd s then -1 else 0, 0, 0, '\x00', '\x00'⟩
  | some (ma, s1) =>
    match s1 with
    | '.' :: s2 =>
      match scanU s2 with
      | none => ⟨1, ma, 0, '\x00', '\x00'⟩
      | some (mi, s3) =>
        match s3 with
        | [] => ⟨2, ma, mi, '\x00', '\x00'⟩
        | c :: s4 =>
          match s4 with
          | [] => ⟨3, ma, mi, c, '\x00'⟩
          | x :: _ => ⟨4, ma, mi, c, x⟩
    | _ => ⟨1, ma, 0, '\x00', '\x00'⟩

/- ## `le_version_t` and the `V` / `V_OLD` macros -/

/-- The `V(major, minor, patch)` macro:
`(((major) << 24) | ((minor) << 16) | ((patch) << 8))`, computed in
32-bit unsigned arithmetic. -/
def V (major minor patch : Nat) : Nat :=
  ((major <<< 24) % 2 ^ 32) ||| ((minor <<< 16) % 2 ^ 32) ||| ((patch <<< 8) % 2 ^ 32)

/-- The `V_OLD(major, minor, patch)` macro: `V(major, minor, (patch)-'a'+1)`,
where `patch` is a character.  The character arithmetic is done in `Int` and
converted to the 32-bit unsigned value the `V` macro then shifts, matching
two's-complement behaviour for characters below `'a'`. -/
def V_OLD (major minor : Nat) (patch : Char) : Nat :=
  V major minor ((((patch.toNat : Int) - 97 + 1) % 2 ^ 32).toNat)

/-- `LE_OLD = V(0,0,0)`: a version of libevent so old we cannot tell what it
is. -/
def LE_OLD : Nat := V 0 0 0

/-- `LE_OTHER = V(0,0,99)`: a version of libevent so weird we cannot tell
what it is. -/
def LE_OTHER : Nat := V 0 0 99

/-- `TOR_ISALPHA`: tor's locale-independent ctype macro (declared in
`compat.h`, which is outside the sources shown): true exactly on the ASCII
letters `A`–`Z` and `a`–`z`. -/
def TOR_ISALPHA (c : Char) : Bool :=
  ('a' ≤ c && c ≤ 'z') || ('A' ≤ c && c ≤ 'Z')

/- ## `tor_decode_libevent_version` -/

/-- `tor_decode_libevent_version`: parse a libevent version string into a
`le_version_t`, returning `LE_OTHER` when the string matches neither the
modern `"1.4.11-stable"` / `"1.4.14b-stable"` shape nor the old `"1.3e"` /
`"1.1"` shape. -/
def tor_decode_libevent_version (v : List Char) : Nat :=
  if (scan_new_format v).fields = 3 ∨
     (((scan_new_format v).fields = 4 ∨ (scan_new_format v).fields = 5) ∧
       ((scan_new_format v).c = '-' ∨ (scan_new_format v).c = '_')) ∨
     ((scan_new_format v).fields = 5 ∧ TOR_ISALPHA (scan_new_format v).c ∧
       ((scan_new_format v).e = '-' ∨ (scan_new_format v).e = '_')) then
    V (scan_new_format v).major (scan_new_format v).minor (scan_new_format v).patchlevel
  else if (scan_old_format v).fields = 3 ∧ TOR_ISALPHA (scan_old_format v).c then
    V_OLD (scan_old_format v).major (scan_old_format v).minor (scan_old_format v).c
  else if (scan_old_format v).fields = 2 then
    V (scan_old_format v).major (scan_old_format v).minor 0
  else
    LE_OTHER

/-- The first acceptance condition of `tor_decode_libevent_version`: the input
matched the modern dotted `MAJOR.MINOR.PATCH[-|_ EXTRA]` shape (optionally
with a release-stage letter before the separator). -/
def matchesModernShape (v : List Char) : Prop :=
  (scan_new_format v).fields = 3 ∨
  (((scan_new_format v).fields = 4 ∨ (scan_new_format v).fields = 5) ∧
    ((scan_new_format v).c = '-' ∨ (scan_new_format v).c = '_')) ∨
  ((scan_new_format v).fields = 5 ∧ TOR_ISALPHA (scan_new_format v).c ∧
    ((scan_new_format v).e = '-' ∨ (scan_new_format v).e = '_'))

/-- The second acceptance condition of `tor_decode_libevent_version`: the
input matched the legacy `MAJOR.MINOR[LETTER]` shape. -/
def matchesLegacyShape (v : List Char) : Prop :=
  ((scan_old_format v).fields = 3 ∧ TOR_ISALPHA (scan_old_format v).c) ∨
  (scan_old_format v).fields = 2

instance (v : List Char) : Decidable (matchesModernShape v) := by
  unfold matchesModernShape; infer_instance

instance (v : List Char) : Decidable (matchesLegacyShape v) := by
  unfold matchesLegacyShape; infer_instance

/- ## `le_versions_compatibility`: ABI-era bucketing -/

/-- `le_versions_compatibility`: bucket a `le_version_t` into coarse binary
(ABI) compatibility eras.  `LE_OTHER` gets the dedicated era `0`; otherwise
the eras are `1` below `1.0c`, `2` below `1.4.0`, `3` below `1.4.99`, `4`
below `2.0.1` and `5` from `2.0.1` on. -/
def le_versions_compatibility (v : Nat) : Int :=
  if v = LE_OTHER then 0
  else if v < V_OLD 1 0 'c' then 1
  else if v < V 1 4 0 then 2
  else if v < V 1 4 99 then 3
  else if v < V 2 0 1 then 4
  else 5

/- ## `tor_check_libevent_header_compatibility` -/

/-- The advisory emitted by the header/runtime skew check: nothing, a
`LOG_NOTICE` ("I think these versions are binary-compatible.") or a
`LOG_WARN` ("This will almost certainly make Tor crash."). -/
inductive SkewAdvisory where
  | noAdvisory
  | lowSeverity
  | highSeverity
deriving DecidableEq, Repr

/-- `tor_check_libevent_header_compatibility` (the
`HEADER_VERSION && HAVE_EVENT_GET_VERSION` branch selected by the shipped
`orconfig.h`), parameterised by the two version strings it compares:
`HEADER_VERSION` (build-time) and `event_get_version()` (runtime).  Equal
strings produce no advisory; otherwise both strings are decoded, bucketed
into ABI eras, and differing eras make the advisory `verybad`. -/
def tor_check_libevent_header_compatibility (header runtime : List Char) :
    SkewAdvisory :=
  if header = runtime then SkewAdvisory.noAdvisory
  else if le_versions_compatibility (tor_decode_libevent_version header) ≠
          le_versions_compatibility (tor_decode_libevent_version runtime) then
    SkewAdvisory.highSeverity
  else
    SkewAdvisory.lowSeverity

/- ## `tor_check_libevent_version`: the known-bug compatibility matrix -/

/-- The platform families distinguished by the conditional compilation around
the thread-safety check: the BSD variants (`__OpenBSD__`/`__FreeBSD__`/
`__NetBSD__`), Mac OS X (`__APPLE__`/`__darwin__`), and everything else. -/
inductive Platform where
  | bsdVariant
  | macOSX
  | otherPlatform
deriving DecidableEq, Repr

/-- Which branch of the final `if`/`else if` reporting chain of
`tor_check_libevent_version` fires. -/
inductive Verdict where
  | threadUnsafe
  | buggyVerdict
  | iffyVerdict
  | slowVerdict
  | noVerdict
deriving DecidableEq, Repr

/-- The reporting chain at the end of `tor_check_libevent_version`:
`thread_unsafe_flag` is reported first, then `buggy`, then `iffy`, then
`slow && server`. -/
def surfaced_verdict (thread_unsafe_flag buggy iffy slow server : Bool) : Verdict :=
  if thread_unsafe_flag then Verdict.threadUnsafe
  else if buggy then Verdict.buggyVerdict
  else if iffy then Verdict.iffyVerdict
  else if slow && server then Verdict.slowVerdict
  else Verdict.noVerdict

/-- Everything `tor_check_libevent_version` computes: the four independent
bug flags (each set by its own non-short-circuiting `if`), the branch of the
reporting chain that fires, and the string stored into `*badness_out`. -/
structure VersionCheck where
  buggy : Bool
  iffy : Bool
  slow : Bool
  thread_unsafe_flag : Bool
  verdict : Verdict
  badness : Option (List Char)
deriving DecidableEq, Repr

/-- `tor_check_libevent_version`, parameterised by the backend name `m`, the
server flag, the platform family fixed by conditional compilation, and the
running libevent version (obtained in C from `tor_get_libevent_version`).
The backend table sets `buggy`/`iffy`/`slow` from per-method thresholds
(note `poll` can set both `buggy` and `slow`); independently, the
thread-safety check sets `thread_unsafe_flag` on the BSD and Mac OS X families
when running a server below `1.3b`.  `badness` follows the reporting chain:
`thread_unsafe_flag` and `buggy` store `"BROKEN"`, `iffy` stores `"BUGGY"`, and
`slow && server` stores `"SLOW"`. -/
def tor_check_libevent_version (m : List Char) (server : Bool)
    (platform : Platform) (version : Nat) : VersionCheck :=
  let flags :=
    if m = "kqueue".toList then (decide (version < V_OLD 1 1 'b'), false, false)
    else if m = "epoll".toList then (false, decide (version < V 1 1 0), false)
    else if m = "poll".toList then
      (decide (version < V_OLD 1 0 'e'), false, decide (version < V 1 1 0))
    else if m = "select".toList then (false, false, decide (version < V 1 1 0))
    else if m = "win32".toList then (decide (version < V_OLD 1 1 'b'), false, false)
    else (false, false, false)
  let buggy := flags.1
  let iffy := flags.2.1
  let slow := flags.2.2
  let thread_unsafe_flag :=
    (decide (platform = Platform.bsdVariant) || decide (platform = Platform.macOSX)) &&
      server && decide (version < V_OLD 1 3 'b')
  let verdict := surfaced_verdict thread_unsafe_flag buggy iffy slow server
  let badness : Option (List Char) :=
    match verdict with
    | Verdict.threadUnsafe => some ("BROKEN".toList)
    | Verdict.buggyVerdict => some ("BROKEN".toList)
    | Verdict.iffyVerdict => some ("BUGGY".toList)
    | Verdict.slowVerdict => some ("SLOW".toList)
    | Verdict.noVerdict => none
  ⟨buggy, iffy, slow, thread_unsafe_flag, verdict, badness⟩

/- ## The global event base and `tor_libevent_get_base` -/

/-- The mutable globals of the module: just
`struct event_base *the_event_base = NULL;`, modelled as an optional
(abstract, numbered) base pointer. -/
structure LibeventGlobals where
  the_event_base : Option Nat
deriving DecidableEq, Repr

/-- The state at program start, before any call into the module: the static
initializer leaves `the_event_base` NULL. -/
def initial_globals : LibeventGlobals := ⟨none⟩

/-- `tor_libevent_get_base`: `return the_event_base;` — it reads the global
unconditionally, with no assertion or initialization check. -/
def tor_libevent_get_base (s : LibeventGlobals) : Option Nat :=
  s.the_event_base

/- ## Heap model for `periodic_timer_free` -/

/-- Memory errors a heap operation can commit. -/
inductive MemError where
  | useAfterFree
deriving DecidableEq, Repr

/-- A heap of live allocations: the live `periodic_timer_t` objects (as
pairs of a timer address and the event address stored in their `ev` field)
and the live `struct event` allocations. -/
structure TimerHeap where
  timers : List (Nat × Nat)
  events : List Nat
deriving DecidableEq, Repr

/-- `tor_event_free(ev)`: deregister and deallocate a `struct event`.
Freeing an event that is not live is a use after free. -/
def tor_event_free (h : TimerHeap) (ev : Nat) : Except MemError TimerHeap :=
  if h.events.contains ev then
    Except.ok { h with events := h.events.erase ev }
  else
    Except.error MemError.useAfterFree

/-- Look up the `ev` field of a live timer. -/
def lookupTimer (l : List (Nat × Nat)) (t : Nat) : Option Nat :=
  match l with
  | [] => none
  | p :: r => if p.1 = t then some p.2 else lookupTimer r t

/-- `periodic_timer_free(timer)`: `if (!timer) return;` then
`tor_event_free(timer->ev); tor_free(timer);`.  Passing NULL is a no-op;
passing a pointer whose allocation is no longer live dereferences freed
memory (`timer->ev`). -/
def periodic_timer_free (h : TimerHeap) (timer : Option Nat) :
    Except MemError TimerHeap :=
  match timer with
  | none => Except.ok h
  | some t =>
    match lookupTimer h.timers t with
    | none => Except.error MemError.useAfterFree
    | some ev =>
      match tor_event_free h ev with
      | Except.error e => Except.error e
      | Except.ok h2 =>
        Except.ok { h2 with timers := h2.timers.filter (fun p => p.1 != t) }

/- ## The periodic-timer callback -/

/-- A `periodic_timer_t`: the underlying event (`ev`), the user callback
(`cb`, abstracted to a code address), the user data pointer (`data`), and —
needed only when libevent has no persistent timers — the stored interval
`tv`. -/
structure periodic_timer_t where
  ev : Nat
  cb : Nat
  data : Nat
  tv : Nat
deriving DecidableEq, Repr

/-- The observable actions `periodic_timer_cb` performs, in order:
re-adding the underlying one-shot event with a timeout, and invoking the
user callback (which in C also receives the timer pointer itself) with the
user data. -/
inductive TimerAction where
  | event_add (ev : Nat) (tv : Nat)
  | invoke_cb (cb : Nat) (data : Nat)
deriving DecidableEq, Repr

/-- `periodic_timer_cb`: the libevent callback behind every firing of a
periodic timer.  When `HAVE_PERIODIC` is not defined (emulated mode) it
first re-registers the event for the stored interval (`event_add(timer->ev,
&timer->tv)`) and then invokes `timer->cb(timer, timer->data)`; with native
periodic support only the user callback runs. -/
def periodic_timer_cb (have_periodic : Bool) (timer : periodic_timer_t) :
    List TimerAction :=
  (if have_periodic then [] else [TimerAction.event_add timer.ev timer.tv]) ++
  [TimerAction.invoke_cb timer.cb timer.data]

/- ## The log bridge (`libevent_logging_callback`) -/

/-- `strstr(hay, needle) != NULL`: does `needle` occur as a contiguous
substring of `hay`? -/
def hasSubstr (hay needle : List Char) : Bool :=
  match hay with
  | [] => needle.isEmpty
  | _ :: t => needle.isPrefixOf hay || hasSubstr t needle

/-- The guard `suppress_msg && strstr(msg, suppress_msg)` at the top of
`libevent_logging_callback`: a message is suppressed when a suppression
substring is configured and occurs in it. -/
def suppressed (suppress_msg : Option (List Char)) (msg : List Char) : Bool :=
  match suppress_msg with
  | some s => hasSubstr msg s
  | none => false

/-- `libevent_logging_callback(severity, msg)`, restricted to the text it
forwards: `none` when the message is suppressed, otherwise the forwarded
buffer contents.  The C code copies `msg` into a 1024-byte buffer with
`strlcpy` (keeping at most 1023 characters; `n` is the length of the
*source*), and chops one trailing `'\n'` only when `0 < n < 1024` — i.e.
only when the message fit.  The severity-to-loglevel mapping is orthogonal
to the forwarded text and is not modelled. -/
def libevent_logging_callback (suppress_msg : Option (List Char))
    (msg : List Char) : Option (List Char) :=
  if suppressed suppress_msg msg = true then
    none
  else if msg.length ≠ 0 ∧ msg.length < 1024 ∧
          (msg.take 1023).getLast? = some '\n' then
    some ((msg.take 1023).dropLast)
  else
    some (msg.take 1023)
theorem shiftLeft_lor_eq_add (a : Nat) :
    ∀ (n b : Nat), b < 2 ^ n → (a <<< n) ||| b = a * 2 ^ n + b := by
  intro n
  induction n with
  | zero =>
    intro b hb
    interval_cases b
    simp [Nat.shiftLeft_zero]
  | succ n ih =>
    intro b hb
    have hd : b / 2 < 2 ^ n := by
      have := Nat.pow_succ 2 n
      omega
    have hval : 2 * Nat.div2 b + (Nat.bodd b).toNat = b := by
      have h1 := Nat.bit_decomp b
      rw [Nat.bit_val] at h1
      exact h1
    have hdiv2 : Nat.div2 b = b / 2 := Nat.div2_val b
    have hsh : a <<< (n + 1) = Nat.bit false (a <<< n) := by
      rw [Nat.shiftLeft_succ, Nat.bit_val]
      simp
    calc (a <<< (n + 1)) ||| b
        = Nat.bit false (a <<< n) ||| Nat.bit (Nat.bodd b) (Nat.div2 b) := by
          rw [hsh, Nat.bit_decomp]
      _ = Nat.bit (false || Nat.bodd b) ((a <<< n) ||| Nat.div2 b) :=
          Nat.lor_bit false (a <<< n) (Nat.bodd b) (Nat.div2 b)
      _ = Nat.bit (Nat.bodd b) (a * 2 ^ n + b / 2) := by
          rw [Bool.false_or, hdiv2, ih (b / 2) hd]
      _ = 2 * (a * 2 ^ n + b / 2) + (Nat.bodd b).toNat := Nat.bit_val _ _
      _ = a * 2 ^ (n + 1) + b := by
          rw [hdiv2] at hval
          have hx : a * 2 ^ (n + 1) = 2 * (a * 2 ^ n) := by ring
          rw [hx]
          omega

theorem lor_add_16 (mi b : Nat) (hb : b < 65536) :
    (mi * 65536) ||| b = mi * 65536 + b := by
  have h := shiftLeft_lor_eq_add mi 16 b (by norm_num; omega)
  rw [Nat.shiftLeft_eq] at h
  norm_num at h
  exact h

theorem lor_add_24 (ma b : Nat) (hb : b < 16777216) :
    (ma * 16777216) ||| b = ma * 16777216 + b := by
  have h := shiftLeft_lor_eq_add ma 24 b (by norm_num; omega)
  rw [Nat.shiftLeft_eq] at h
  norm_num at h
  exact h

theorem V_eq_sum (ma mi p : Nat) (hma : ma < 256) (hmi : mi < 256) (hp : p < 256) :
    V ma mi p = ma * 16777216 + mi * 65536 + p * 256 := by
  have e24 : ma <<< 24 = ma * 16777216 := by rw [Nat.shiftLeft_eq]
  have e16 : mi <<< 16 = mi * 65536 := by rw [Nat.shiftLeft_eq]
  have e8 : p <<< 8 = p * 256 := by rw [Nat.shiftLeft_eq]
  have hpow : (2 : Nat) ^ 32 = 4294967296 := by norm_num
  have m24 : ma * 16777216 % 2 ^ 32 = ma * 16777216 :=
    Nat.mod_eq_of_lt (by rw [hpow]; omega)
  have m16 : mi * 65536 % 2 ^ 32 = mi * 65536 :=
    Nat.mod_eq_of_lt (by rw [hpow]; omega)
  have m8 : p * 256 % 2 ^ 32 = p * 256 :=
    Nat.mod_eq_of_lt (by rw [hpow]; omega)
  unfold V
  rw [e24, e16, e8, m24, m16, m8, Nat.lor_assoc,
      lor_add_16 mi (p * 256) (by omega),
      lor_add_24 ma (mi * 65536 + p * 256) (by omega)]
  ring

theorem le_versions_compatibility_other :
    le_versions_compatibility LE_OTHER = 0 := by
  unfold le_versions_compatibility
  rw [if_pos rfl]

theorem le_versions_compatibility_ne_zero (v : Nat) (hv : v ≠ LE_OTHER) :
    le_versions_compatibility v ≠ 0 := by
  unfold le_versions_compatibility
  rw [if_neg hv]
  split_ifs <;> decide

theorem lookupTimer_filter_self (l : List (Nat × Nat)) (t : Nat) :
    lookupTimer (l.filter (fun p => p.1 != t)) t = none := by
  induction l with
  | nil => rfl
  | cons hd tl ih =>
    by_cases h : hd.1 = t
    · simp [List.filter_cons, h, ih]
    · simp [List.filter_cons, h, lookupTimer, ih]

theorem surfaced_verdict_spec :
    ∀ tu b i s sv : Bool,
      (surfaced_verdict tu b i s sv = Verdict.threadUnsafe ↔ tu = true) ∧
      (surfaced_verdict tu b i s sv = Verdict.buggyVerdict ↔
        (tu = false ∧ b = true)) ∧
      (surfaced_verdict tu b i s sv = Verdict.iffyVerdict ↔
        (tu = false ∧ b = false ∧ i = true)) ∧
      (surfaced_verdict tu b i s sv = Verdict.slowVerdict ↔
        (tu = false ∧ b = false ∧ i = false ∧ s = true ∧ sv = true)) ∧
      (surfaced_verdict tu b i s sv = Verdict.noVerdict ↔
        (tu = false ∧ b = false ∧ i = false ∧ (s = false ∨ sv = false))) := by
  decide

/- ## Claims -/

/-- C1, counterexample: the claim says the `LE_OTHER` sentinel "compares
strictly greater than every real triple used as a threshold".  In fact
`LE_OTHER = V(0,0,99)` is *smaller* than the decoded value of `"1.0e"`
(and of every threshold with major ≥ 1); moreover the well-formed string
`"0.0.99"` decodes to a value equal to the sentinel. -/
theorem c1_sentinel_counterexample :
    tor_decode_libevent_version ("garbage".toList) = LE_OTHER ∧
    LE_OTHER < tor_decode_libevent_version ("1.0e".toList) ∧
    tor_decode_libevent_version ("0.0.99".toList) = LE_OTHER := by decide

/-- C1 (amended): every input matching neither accepted version shape
decodes to the `LE_OTHER` sentinel; the sentinel differs from each decoded
threshold triple used in the compatibility-matrix tests (`1.0e`, `1.1b`,
`1.1.0`), but it compares strictly *less* than each of them (not greater,
as the original claim said), so an unrecognized version falls below every
`version < threshold` bug test. -/
theorem c1_sentinel_amended :
    (∀ v : List Char, ¬ matchesModernShape v → ¬ matchesLegacyShape v →
      tor_decode_libevent_version v = LE_OTHER) ∧
    (LE_OTHER ≠ tor_decode_libevent_version ("1.0e".toList) ∧
     LE_OTHER ≠ tor_decode_libevent_version ("1.1b".toList) ∧
     LE_OTHER ≠ tor_decode_libevent_version ("1.1".toList)) ∧
    (LE_OTHER < tor_decode_libevent_version ("1.0e".toList) ∧
     LE_OTHER < tor_decode_libevent_version ("1.1b".toList) ∧
     LE_OTHER < tor_decode_libevent_version ("1.1".toList)) := by
  refine ⟨?_, by decide, by decide⟩
  intro v h1 h2
  unfold matchesModernShape at h1
  unfold matchesLegacyShape at h2
  unfold tor_decode_libevent_version
  rw [if_neg h1, if_neg (fun hc => h2 (Or.inl hc)), if_neg (fun hc => h2 (Or.inr hc))]

/-- C1, witness: `"garbage"` matches neither shape and decodes to the
sentinel. -/
theorem c1_sentinel_amended_witness :
    ¬ matchesModernShape ("garbage".toList) ∧ ¬ matchesLegacyShape ("garbage".toList) ∧
    tor_decode_libevent_version ("garbage".toList) = LE_OTHER :=
  ⟨by decide, by decide, c1_sentinel_amended.1 ("garbage".toList) (by decide) (by decide)⟩

/-- C2, counterexample: the claim says calling `tor_libevent_get_base`
before initialization fails with a programming-error condition rather than
silently returning an absent loop context.  In fact the function is a bare
`return the_event_base;`, so before initialization it silently returns the
NULL (absent) base — the claim's "does not return an absent context" is
false at the initial state. -/
theorem c2_get_base_counterexample :
    ¬ (tor_libevent_get_base initial_globals ≠ none) :=
  fun h => h rfl

/-- C2 (amended): `tor_libevent_get_base` performs no initialization check
and raises no programming-error condition; before `tor_libevent_initialize`
has run it returns the absent (NULL) context, and in general it returns
exactly whatever the global `the_event_base` holds. -/
theorem c2_get_base_amended :
    tor_libevent_get_base initial_globals = none ∧
    ∀ b : Nat, tor_libevent_get_base ⟨some b⟩ = some b :=
  ⟨rfl, fun _ => rfl⟩

/-- C3, counterexample: the claim says a second `periodic_timer_free` of the
same already-destroyed timer is a no-op, with the state after destroying
twice equal to the state after destroying once.  In fact the C code
unconditionally dereferences `timer->ev` and frees `timer` again, a
use-after-free / double free: on a heap holding one timer, the first free
succeeds and the second is a memory error, not a no-op. -/
theorem c3_destroy_counterexample :
    periodic_timer_free ⟨[(1, 10)], [10]⟩ (some 1) = Except.ok ⟨[], []⟩ ∧
    periodic_timer_free ⟨[], []⟩ (some 1) = Except.error MemError.useAfterFree ∧
    (Except.error MemError.useAfterFree ≠
      (Except.ok ⟨[], []⟩ : Except MemError TimerHeap)) :=
  ⟨rfl, rfl, fun hc => Except.noConfusion hc⟩

/-- C3 (amended): `periodic_timer_free(NULL)` is a no-op on any heap, but a
second `periodic_timer_free` of the same non-null, already-freed timer is a
use-after-free error, not a no-op. -/
theorem c3_destroy_amended :
    (∀ h : TimerHeap, periodic_timer_free h none = Except.ok h) ∧
    (∀ (h : TimerHeap) (t : Nat) (h' : TimerHeap),
      periodic_timer_free h (some t) = Except.ok h' →
      periodic_timer_free h' (some t) = Except.error MemError.useAfterFree) := by
  constructor
  · intro h
    rfl
  · intro h t h' heq
    cases hl : lookupTimer h.timers t with
    | none =>
      simp [periodic_timer_free, hl] at heq
    | some ev =>
      cases he : tor_event_free h ev with
      | error e =>
        simp [periodic_timer_free, hl, he] at heq
      | ok h2 =>
        obtain ⟨ts2, evs2⟩ := h2
        simp only [periodic_timer_free, hl, he] at heq
        injection heq with h3
        subst h3
        simp [periodic_timer_free, lookupTimer_filter_self]

/-- C3, witness: freeing NULL on the empty heap is a no-op, and re-freeing
timer `1` after it was freed from the one-timer heap is a use-after-free. -/
theorem c3_destroy_amended_witness :
    periodic_timer_free ⟨[], []⟩ none = Except.ok ⟨[], []⟩ ∧
    periodic_timer_free ⟨[], []⟩ (some 1) = Except.error MemError.useAfterFree :=
  ⟨c3_destroy_amended.1 ⟨[], []⟩,
   c3_destroy_amended.2 ⟨[(1, 10)], [10]⟩ 1 ⟨[], []⟩ rfl⟩

/-- C4, counterexample: the claim says that whenever either of two textually
different version strings is unparseable the skew check is forced into the
high-severity branch.  When *both* strings are unparseable they both land
in era `0`, the eras compare equal, and the check emits the *low*-severity
advisory instead. -/
theorem c4_skew_counterexample :
    "garbage".toList ≠ "trash".toList ∧
    tor_decode_libevent_version ("garbage".toList) = LE_OTHER ∧
    tor_decode_libevent_version ("trash".toList) = LE_OTHER ∧
    tor_check_libevent_header_compatibility ("garbage".toList) ("trash".toList) =
      SkewAdvisory.lowSeverity := by decide

/-- C4 (amended): for textually different build-time and runtime version
strings, if *exactly one* of them is unparseable (decodes to `LE_OTHER`,
whose era `0` never equals the era of any parseable version) the skew check
lands in the high-severity ("will almost certainly crash") branch; when
both are unparseable the eras coincide and the low-severity branch is taken
instead.  Differing strings never raise an error — the check always returns
an advisory. -/
theorem c4_skew_amended :
    ∀ h r : List Char, h ≠ r →
      ((tor_decode_libevent_version h = LE_OTHER ∧
        tor_decode_libevent_version r ≠ LE_OTHER) ∨
       (tor_decode_libevent_version h ≠ LE_OTHER ∧
        tor_decode_libevent_version r = LE_OTHER)) →
      tor_check_libevent_header_compatibility h r = SkewAdvisory.highSeverity := by
  intro h r hne hone
  unfold tor_check_libevent_header_compatibility
  rw [if_neg hne]
  have hcc : le_versions_compatibility (tor_decode_libevent_version h) ≠
      le_versions_compatibility (tor_decode_libevent_version r) := by
    rcases hone with ⟨h0, hr0⟩ | ⟨h0, hr0⟩
    · rw [h0, le_versions_compatibility_other]
      exact fun e => le_versions_compatibility_ne_zero _ hr0 e.symm
    · rw [hr0, le_versions_compatibility_other]
      exact fun e => le_versions_compatibility_ne_zero _ h0 e
  rw [if_pos hcc]

/-- C4, witness: unparseable `"garbage"` against parseable
`"1.4.11-stable"` yields the high-severity advisory. -/
theorem c4_skew_amended_witness :
    tor_check_libevent_header_compatibility ("garbage".toList) ("1.4.11-stable".toList) =
      SkewAdvisory.highSeverity :=
  c4_skew_amended ("garbage".toList) ("1.4.11-stable".toList) (by decide)
    (Or.inl ⟨by decide, by decide⟩)

/-- C5 (confirmed): `tor_check_libevent_version` computes all bug flags
independently (they are all present in the result, regardless of which one
is reported) and surfaces exactly the most severe triggered condition,
under the order thread-unsafe > buggy > iffy > slow > none (with `slow`
only ever surfaced in server role, as in the source).  In particular, in a
server-role run on a BSD-family platform with version `1.0.0` — which
triggers both the thread-unsafety check and `select`'s backend-specific
"slow" classification — the `slow` flag is computed (`= true`) but the
final verdict is thread-unsafe, not slow. -/
theorem c5_severity_dominance (m : List Char) (server : Bool) (p : Platform)
    (version : Nat) :
    ((tor_check_libevent_version m server p version).verdict = Verdict.threadUnsafe ↔
      (tor_check_libevent_version m server p version).thread_unsafe_flag = true) ∧
    ((tor_check_libevent_version m server p version).verdict = Verdict.buggyVerdict ↔
      ((tor_check_libevent_version m server p version).thread_unsafe_flag = false ∧
       (tor_check_libevent_version m server p version).buggy = true)) ∧
    ((tor_check_libevent_version m server p version).verdict = Verdict.iffyVerdict ↔
      ((tor_check_libevent_version m server p version).thread_unsafe_flag = false ∧
       (tor_check_libevent_version m server p version).buggy = false ∧
       (tor_check_libevent_version m server p version).iffy = true)) ∧
    ((tor_check_libevent_version m server p version).verdict = Verdict.slowVerdict ↔
      ((tor_check_libevent_version m server p version).thread_unsafe_flag = false ∧
       (tor_check_libevent_version m server p version).buggy = false ∧
       (tor_check_libevent_version m server p version).iffy = false ∧
       (tor_check_libevent_version m server p version).slow = true ∧
       server = true)) ∧
    ((tor_check_libevent_version ("select".toList) true Platform.bsdVariant
        (V 1 0 0)).slow = true ∧
     (tor_check_libevent_version ("select".toList) true Platform.bsdVariant
        (V 1 0 0)).thread_unsafe_flag = true ∧
     (tor_check_libevent_version ("select".toList) true Platform.bsdVariant
        (V 1 0 0)).verdict = Verdict.threadUnsafe) := by
  have hv : (tor_check_libevent_version m server p version).verdict =
      surfaced_verdict (tor_check_libevent_version m server p version).thread_unsafe_flag
        (tor_check_libevent_version m server p version).buggy
        (tor_check_libevent_version m server p version).iffy
        (tor_check_libevent_version m server p version).slow server := rfl
  have hs := surfaced_verdict_spec
    (tor_check_libevent_version m server p version).thread_unsafe_flag
    (tor_check_libevent_version m server p version).buggy
    (tor_check_libevent_version m server p version).iffy
    (tor_check_libevent_version m server p version).slow server
  rw [hv]
  exact ⟨hs.1, hs.2.1, hs.2.2.1, hs.2.2.2.1, by decide⟩

/-- C6 (confirmed): `tor_decode_libevent_version` maps `"1.4.11-stable"` to
`(1,4,11)`, `"1.4.14b-stable"` to `(1,4,14)`, `"1.3e"` to `(1,3,5)`,
`"1.1"` to `(1,1,0)`, `"2.0.1"` to `(2,0,1)` and `"garbage"` to the
`LE_OTHER` sentinel; the legacy trailing letter is normalized to a patch
ordinal via `letter - 'a' + 1` (`'a'` ↦ 1, `'b'` ↦ 2, `'e'` ↦ 5).  The
function is a pure Lean function, hence deterministic and side-effect
free. -/
theorem c6_decode_examples :
    tor_decode_libevent_version ("1.4.11-stable".toList) = V 1 4 11 ∧
    tor_decode_libevent_version ("1.4.14b-stable".toList) = V 1 4 14 ∧
    tor_decode_libevent_version ("1.3e".toList) = V 1 3 5 ∧
    tor_decode_libevent_version ("1.1".toList) = V 1 1 0 ∧
    tor_decode_libevent_version ("2.0.1".toList) = V 2 0 1 ∧
    tor_decode_libevent_version ("garbage".toList) = LE_OTHER ∧
    V_OLD 1 3 'a' = V 1 3 1 ∧ V_OLD 1 3 'b' = V 1 3 2 ∧ V_OLD 1 3 'e' = V 1 3 5 := by
  decide

/-- C7 (confirmed): the skew check emits no advisory on textually identical
strings; otherwise it decodes both strings, buckets them with
`le_versions_compatibility`, and emits the high-severity advisory exactly
when the buckets differ and the low-severity one when they match.  On
parseable (non-`LE_OTHER`) values the bucketing function is the monotonic
step function with boundaries `1.0c`, `1.4.0`, `1.4.99` and `2.0.1`
(eras 1–5). -/
theorem c7_skew_behavior :
    (∀ h r : List Char,
      tor_check_libevent_header_compatibility h r =
        if h = r then SkewAdvisory.noAdvisory
        else if le_versions_compatibility (tor_decode_libevent_version h) =
                le_versions_compatibility (tor_decode_libevent_version r) then
          SkewAdvisory.lowSeverity
        else SkewAdvisory.highSeverity) ∧
    (∀ v : Nat, v ≠ LE_OTHER →
      le_versions_compatibility v =
        if v < V_OLD 1 0 'c' then 1
        else if v < V 1 4 0 then 2
        else if v < V 1 4 99 then 3
        else if v < V 2 0 1 then 4
        else 5) ∧
    (∀ v w : Nat, v ≠ LE_OTHER → w ≠ LE_OTHER → v ≤ w →
      le_versions_compatibility v ≤ le_versions_compatibility w) := by
  refine ⟨?_, ?_, ?_⟩
  · intro h r
    unfold tor_check_libevent_header_compatibility
    by_cases hr : h = r
    · rw [if_pos hr, if_pos hr]
    · rw [if_neg hr, if_neg hr]
      by_cases hc : le_versions_compatibility (tor_decode_libevent_version h) =
          le_versions_compatibility (tor_decode_libevent_version r)
      · rw [if_neg (fun k => k hc), if_pos hc]
      · rw [if_pos hc, if_neg hc]
  · intro v hv
    unfold le_versions_compatibility
    rw [if_neg hv]
  · intro v w hv hw hvw
    unfold le_versions_compatibility
    rw [if_neg hv, if_neg hw]
    have e1 : V_OLD 1 0 'c' = 16777984 := by decide
    have e2 : V 1 4 0 = 17039360 := by decide
    have e3 : V 1 4 99 = 17064704 := by decide
    have e4 : V 2 0 1 = 33554688 := by decide
    rw [e1, e2, e3, e4]
    split_ifs <;> omega

/-- C7, witness: identical strings give no advisory; `1.4.11` lies in
era 3; the eras of `1.0.0` and `1.4.0` are ordered with the versions. -/
theorem c7_skew_behavior_witness :
    tor_check_libevent_header_compatibility ("1.3e".toList) ("1.3e".toList) =
      SkewAdvisory.noAdvisory ∧
    le_versions_compatibility (V 1 4 11) = 3 ∧
    le_versions_compatibility (V 1 0 0) ≤ le_versions_compatibility (V 1 4 0) :=
  ⟨(c7_skew_behavior.1 ("1.3e".toList) ("1.3e".toList)).trans (by decide),
   (c7_skew_behavior.2.1 (V 1 4 11) (by decide)).trans (by decide),
   c7_skew_behavior.2.2 (V 1 0 0) (V 1 4 0) (by decide) (by decide) (by decide)⟩

/-- C8 (confirmed): on in-range components (each below 256, so that the
byte fields of the `le_version_t` encoding do not collide), `V` is an order
isomorphism onto its image: `V a < V b` holds exactly when the triple `a`
precedes the triple `b` lexicographically (semantic version precedence).
Hence `<` on decoded tags is a strict total order consistent with semantic
precedence; in particular `decode "1.3.9" < decode "1.4.0" <
decode "2.0.1"`. -/
theorem c8_decode_order :
    (∀ ma1 mi1 p1 ma2 mi2 p2 : Nat,
      ma1 < 256 → mi1 < 256 → p1 < 256 → ma2 < 256 → mi2 < 256 → p2 < 256 →
      (V ma1 mi1 p1 < V ma2 mi2 p2 ↔
        (ma1 < ma2 ∨ (ma1 = ma2 ∧ (mi1 < mi2 ∨ (mi1 = mi2 ∧ p1 < p2)))))) ∧
    tor_decode_libevent_version ("1.3.9".toList) <
      tor_decode_libevent_version ("1.4.0".toList) ∧
    tor_decode_libevent_version ("1.4.0".toList) <
      tor_decode_libevent_version ("2.0.1".toList) := by
  refine ⟨?_, by decide, by decide⟩
  intro ma1 mi1 p1 ma2 mi2 p2 h1 h2 h3 h4 h5 h6
  rw [V_eq_sum ma1 mi1 p1 h1 h2 h3, V_eq_sum ma2 mi2 p2 h4 h5 h6]
  omega

/-- C8, witness: `1.3.9` precedes `1.4.0`. -/
theorem c8_decode_order_witness :
    V 1 3 9 < V 1 4 0 ↔ (1 < 1 ∨ (1 = 1 ∧ (3 < 4 ∨ (3 = 4 ∧ 9 < 0)))) :=
  c8_decode_order.1 1 3 9 1 4 0 (by decide) (by decide) (by decide) (by decide)
    (by decide) (by decide)

/-- C9 (confirmed): in emulated mode (`HAVE_PERIODIC` undefined), every
firing of a periodic timer first re-registers the one-shot event for the
stored interval (`event_add(timer->ev, &timer->tv)`) and only then invokes
the user callback with the user data: the trace of a firing is exactly
the re-registration followed by the callback invocation. -/
theorem c9_emulated_reschedule_first (t : periodic_timer_t) :
    periodic_timer_cb false t =
      [TimerAction.event_add t.ev t.tv, TimerAction.invoke_cb t.cb t.data] :=
  rfl

/-- C10 (confirmed): every non-suppressed libevent diagnostic passes
through the fixed 1024-byte buffer: a message of at most 1023 bytes is
forwarded with one trailing newline removed when present, while a longer
message is forwarded truncated to its first 1023 bytes with no
newline-trimming (the `n < sizeof(buf)` guard fails, because `strlcpy`
returns the length of the *source*). -/
theorem c10_log_buffer (sup : Option (List Char)) (msg : List Char)
    (hns : ∀ s, sup = some s → hasSubstr msg s = false) :
    libevent_logging_callback sup msg =
      some (if msg.length ≤ 1023 then
              (if msg.getLast? = some '\n' then msg.dropLast else msg)
            else msg.take 1023) := by
  have hsup : suppressed sup msg = false := by
    cases sup with
    | none => rfl
    | some s => exact hns s rfl
  unfold libevent_logging_callback
  rw [hsup]
  rw [if_neg (by decide : ¬ ((false : Bool) = true))]
  by_cases hlen : msg.length ≤ 1023
  · have htake : msg.take 1023 = msg := List.take_of_length_le hlen
    rw [htake, if_pos hlen]
    by_cases hnl : msg.getLast? = some '\n'
    · have hne : msg.length ≠ 0 := by
        intro h0
        rw [List.length_eq_zero] at h0
        rw [h0] at hnl
        simp at hnl
      rw [if_pos ⟨hne, by omega, hnl⟩, if_pos hnl]
    · rw [if_neg (fun hc => hnl hc.2.2), if_neg hnl]
  · rw [if_neg hlen, if_neg (fun hc => absurd hc.2.1 (by omega))]

/-- C10, witness: with no suppression configured, `"abc\n"` is forwarded
as `"abc"`. -/
theorem c10_log_buffer_witness :
    libevent_logging_callback none ("abc\n".toList) = some ("abc".toList) :=
  (c10_log_buffer none ("abc\n".toList) (fun _ hs => Option.noConfusion hs)).trans
    (by decide)

/-- C2, witness: the amended statement evaluated at the initial state and
at a populated state. -/
theorem c2_get_base_amended_witness :
    tor_libevent_get_base initial_globals = none ∧
    tor_libevent_get_base ⟨some 5⟩ = some 5 :=
  ⟨c2_get_base_amended.1, c2_get_base_amended.2 5⟩

/-- C5, witness: the dominance equivalence evaluated at the claim's
server/BSD/`select`/`1.0.0` scenario. -/
theorem c5_severity_dominance_witness :
    (tor_check_libevent_version ("select".toList) true Platform.bsdVariant
        (V 1 0 0)).verdict = Verdict.threadUnsafe ↔
      (tor_check_libevent_version ("select".toList) true Platform.bsdVariant
        (V 1 0 0)).thread_unsafe_flag = true :=
  (c5_severity_dominance ("select".toList) true Platform.bsdVariant (V 1 0 0)).1

/-- C9, witness: the firing trace of a concrete emulated timer. -/
theorem c9_emulated_reschedule_first_witness :
    periodic_timer_cb false ⟨10, 20, 30, 40⟩ =
      [TimerAction.event_add 10 40, TimerAction.invoke_cb 20 30] :=
  c9_emulated_reschedule_first ⟨10, 20, 30, 40⟩
